import Mathlib

/-!
Verification development for the hikvision_next integration: a shallow
embedding of the ISAPI client operations, the device-model builder, the
event-notification dispatcher, the auto-reset timer registry, and the
integration service handlers, with theorems settling the specified
behavioural properties.

The repository snapshot contains `const.py`, `services.py`, `sensor.py`,
`select.py` and the test suite; the ISAPI client module
(`isapi/isapi.py`), the device model (`hikvision_device.py`) and the
notification dispatcher (`notifications.py`) are not part of the
snapshot.  Definitions for those parts are modelled from the
specification (each such definition says so in its doc comment) and are
pinned to the behaviour the repository's test suite observes; the
service-handler definitions are translated directly from
`custom_components/hikvision_next/services.py`.
-/

namespace HikvisionNext

/-! ## Basic data model -/

/-- Modelled from the spec (§3 DeviceCapabilities; `isapi/isapi.py` is not
in the snapshot): boolean capability flags discovered once per device and
consulted before every capability-gated operation. -/
structure DeviceCapabilities where
  support_siren : Bool := false
  support_strobe : Bool := false
  support_voice : Bool := false
  support_two_way_audio : Bool := false
  support_ptz : Bool := false
deriving DecidableEq, Repr

/-- Error raised by a capability-gated operation invoked on a device
lacking the capability; carries the missing feature's name (spec §7,
`ISAPIActiveDeterrenceNotSupportedError` in `isapi/__init__.py`). -/
structure NotSupportedError where
  feature : String
  message : String
deriving DecidableEq, Repr

/-- An outgoing HTTP request to the device.  `body` holds the key/value
fields of an XML/JSON payload (the wrapper key such as `AudioAlarm` is
recorded in `bodyWrapper`); `rawBody` holds a binary payload as a byte
list. -/
structure HttpRequest where
  method : String
  path : String
  headers : List (String × String) := []
  bodyWrapper : String := ""
  body : List (String × String) := []
  rawBody : List Nat := []
deriving DecidableEq, Repr

/-- Integer clamping used by the active-deterrence operations: out-of-range
values are clamped to the nearest bound, never rejected (spec §4.2). -/
def clampInt (lo hi x : Int) : Int := max lo (min x hi)

/-- Lookup of a field in a request's structured body. -/
def bodyField (r : HttpRequest) (key : String) : Option String :=
  r.body.lookup key

/-- The list of HTTP requests an operation performed: none on the
capability-gated error path, exactly the built request on success. -/
def requestsMade : Except NotSupportedError HttpRequest → List HttpRequest
  | .error _ => []
  | .ok r => [r]

/-! ## Active deterrence operations (siren / strobe / voice)

Modelled from the spec (§4.2 capability gating and parameter clamping,
§6 endpoint table) and pinned to the request shapes asserted by
`tests/test_active_deterrence.py`; `isapi/isapi.py` itself is not in the
snapshot. -/

/-- Modelled from the spec: `trigger_siren` checks `support_siren`, failing
with a `NotSupportedError` carrying `"siren"` before any request is built;
otherwise it PUTs an `AudioAlarm` JSON body with duration clamped to
[1,300], volume to [1,100] and alarm repeat count to [1,10], each
serialized as a decimal string. -/
def trigger_siren (caps : DeviceCapabilities)
    (duration audio_id volume alarm_times : Int) :
    Except NotSupportedError HttpRequest :=
  if caps.support_siren = false then
    .error { feature := "siren", message := "Device does not support siren" }
  else
    .ok { method := "PUT"
          path := "Event/triggers/notifications/AudioAlarm?format=json"
          bodyWrapper := "AudioAlarm"
          body := [("audioID", toString audio_id),
                   ("audioVolume", toString (clampInt 1 100 volume)),
                   ("alarmTimes", toString (clampInt 1 10 alarm_times)),
                   ("durationTime", toString (clampInt 1 300 duration))] }

/-- Modelled from the spec: `trigger_strobe` checks `support_strobe`,
failing with a `NotSupportedError` carrying `"strobe"` before any request
is built; otherwise it PUTs a `WhiteLightAlarm` body with duration clamped
to [1,300] and an unrecognized frequency falling back to `"medium"`. -/
def trigger_strobe (caps : DeviceCapabilities)
    (channel_id : Nat) (duration : Int) (frequency : String) :
    Except NotSupportedError HttpRequest :=
  if caps.support_strobe = false then
    .error { feature := "strobe", message := "Device does not support strobe" }
  else
    let freq := if ["low", "medium", "high", "constant"].contains frequency
      then frequency else "medium"
    .ok { method := "PUT"
          path := "Event/triggers/notifications/channels/" ++ toString channel_id
                    ++ "/whiteLightAlarm?format=json"
          bodyWrapper := "WhiteLightAlarm"
          body := [("channelID", toString channel_id),
                   ("durationTime", toString (clampInt 1 300 duration)),
                   ("frequency", freq)] }

/-- Modelled from the spec: `play_voice` checks `support_voice`, failing
with a `NotSupportedError` carrying `"voice"` before any request is built;
otherwise it PUTs an `AudioAlarm` body of class `alertAudio` with volume
clamped to [1,100] and alarm repeat count to [1,10]. -/
def play_voice (caps : DeviceCapabilities)
    (audio_id volume alarm_times : Int) :
    Except NotSupportedError HttpRequest :=
  if caps.support_voice = false then
    .error { feature := "voice", message := "Device does not support voice" }
  else
    .ok { method := "PUT"
          path := "Event/triggers/notifications/AudioAlarm?format=json"
          bodyWrapper := "AudioAlarm"
          body := [("audioID", toString audio_id),
                   ("audioVolume", toString (clampInt 1 100 volume)),
                   ("alarmTimes", toString (clampInt 1 10 alarm_times)),
                   ("audioClass", "alertAudio"),
                   ("alertAudioID", toString audio_id)] }

/-- Modelled from the spec (§4.2 two-way audio) and the test suite
(`tests/test_two_way_audio.py`): `send_audio_data` is a best-effort
operation that returns `none` (Python `False`) without building any
request when two-way audio is unsupported or the payload is empty, and
otherwise PUTs the byte payload verbatim to the channel's `audioData`
endpoint with content-type `application/octet-stream`.  The snapshot's
`test_send_audio_data_empty` pins the empty payload to `False`. -/
def send_audio_data (caps : DeviceCapabilities)
    (audio_data : List Nat) (channel_id : Nat) : Option HttpRequest :=
  if caps.support_two_way_audio = false then none
  else if audio_data = [] then none
  else
    some { method := "PUT"
           path := "System/TwoWayAudio/channels/" ++ toString channel_id ++ "/audioData"
           headers := [("content-type", "application/octet-stream")]
           rawBody := audio_data }

/-! ## Integration service handlers

Translated from `custom_components/hikvision_next/services.py`. -/

/-- The body of a device response as seen by the handler: Python's
`ex.response.content` is either `bytes` or `str`.  The `bytes`
constructor carries the string the raw bytes decode to as UTF-8, so
`.decode("utf-8")` is modelled as projecting that string. -/
inductive ResponseContent where
  | bytes (decoded : String)
  | text (s : String)
deriving DecidableEq, Repr

/-- Python `content.decode("utf-8")` when content is bytes, identity when
it is already a string (`services.py` lines 87-90). -/
def decodeContent : ResponseContent → String
  | .bytes d => d
  | .text s => s

/-- Outcome of `device.request` as observed by `handle_isapi_request`:
either a successful string response, or one of the three caught error
types (`HTTPStatusError`, `ISAPIForbiddenError`, `ISAPIUnauthorizedError`)
carrying the error response's body. -/
inductive RequestOutcome where
  | ok (response : String)
  | httpStatusError (content : ResponseContent)
  | forbidden (content : ResponseContent)
  | unauthorized (content : ResponseContent)
deriving DecidableEq, Repr

/-- Python `s.replace("\r", "")`: every carriage-return character removed. -/
def removeCR (s : String) : String :=
  String.mk (s.data.filter (fun c => c != '\r'))

/-- Translated from `handle_isapi_request` in `services.py`: the request is
attempted; the three HTTP error types are caught and their response body
(UTF-8 decoded when bytes) becomes the response value; the handler returns
an action response `{"data": response.replace("\r", "")}`.  An `Except`
error value would model an exception escaping the handler; the handler
never produces one for these outcomes. -/
def handle_isapi_request (outcome : RequestOutcome) :
    Except String (List (String × String)) :=
  let response : String :=
    match outcome with
    | .ok resp => resp
    | .httpStatusError c => decodeContent c
    | .forbidden c => decodeContent c
    | .unauthorized c => decodeContent c
  .ok [("data", removeCR response)]

/-! ## XML payload normalizer

Modelled from the spec (§4.1): the vendor XML deserializes to a
key-addressable structure in which a repeatable group appears as a bare
mapping when exactly one child element is present and as a list
otherwise; `ensureList` is the always-list normalization pass applied by
every list-returning parse.  The implementing module is not in the
snapshot. -/

/-- Decimal parse of a scalar text field, modelling the int coercion the
normalizer applies to numeric vendor fields; non-numeric text is `none`. -/
def strToNat (s : String) : Option Nat :=
  if !s.data.isEmpty && s.data.all (fun c => c.isDigit) then
    some (s.data.foldl (fun n c => 10 * n + (c.toNat - 48)) 0)
  else none

/-- ASCII lower-casing of a vendor tag, modelling Python `str.lower()` as
applied to raw event types. -/
def lowerStr (s : String) : String := String.mk (s.data.map Char.toLower)

/-- A deserialized XML payload: a scalar text node, an element with named
children, or the collapsed representation of several same-named siblings. -/
inductive XNode where
  | text (s : String)
  | elem (children : List (String × XNode))
  | list (items : List XNode)

/-- Child lookup inside an element node. -/
def xfind (n : XNode) (key : String) : Option XNode :=
  match n with
  | .elem children => children.lookup key
  | _ => none

/-- Scalar text of a named child, when present. -/
def xtext (n : XNode) (key : String) : Option String :=
  match xfind n key with
  | some (.text s) => some s
  | _ => none

/-- Modelled from the spec: the always-list normalization pass.  A missing
group is an empty list, a collapsed single child is a one-element list, a
list node is its items. -/
def ensureList : Option XNode → List XNode
  | none => []
  | some (.list items) => items
  | some x => [x]

/-- PTZ preset value record (spec §3). -/
structure PTZPresetInfo where
  id : Nat
  name : String
  enabled : Bool
deriving DecidableEq, Repr

/-- One `PTZPreset` element deserialized into a `PTZPresetInfo`. -/
def parsePreset (n : XNode) : PTZPresetInfo :=
  { id := ((xtext n "id").bind strToNat).getD 0
    name := (xtext n "presetName").getD ""
    enabled := (xtext n "enabled").getD "" = "true" }

/-- Modelled from the spec: `get_ptz_presets` reads the `PTZPreset`
children of `PTZPresetList` through the always-list pass, deserializes
each and filters out placeholder presets with an empty name (§4.2). -/
def get_ptz_presets (root : XNode) : List PTZPresetInfo :=
  ((ensureList ((xfind root "PTZPresetList").bind
      (fun l => xfind l "PTZPreset"))).map parsePreset).filter
    (fun p => p.name != "")

/-- Canonical notification-host record (spec §4.2 alarm-server
configuration; field list as in `sensor.py` `NOTIFICATION_HOST_KEYS`,
where `address` is the ip-address or host-name alias). -/
structure NotificationHost where
  protocol_type : String
  address : String
  port_no : Nat
  url : String
deriving DecidableEq, Repr

/-- One `HttpHostNotification` element normalized into the canonical
record, resolving the `ipAddress`/`hostName` field alias. -/
def parseHost (n : XNode) : NotificationHost :=
  { protocol_type := (xtext n "protocolType").getD ""
    address := ((xtext n "ipAddress").orElse (fun _ => xtext n "hostName")).getD ""
    port_no := ((xtext n "portNo").bind strToNat).getD 0
    url := (xtext n "url").getD "" }

/-- Modelled from the spec: `get_alarm_server` reads the configured
notification hosts, normalizing the NVR's collapsed single-item shape and
the multi-camera list shape into the same canonical record (the first
configured host). -/
def get_alarm_server (root : XNode) : Option NotificationHost :=
  match ensureList ((xfind root "HttpHostNotificationList").bind
      (fun l => xfind l "HttpHostNotification")) with
  | [] => none
  | h :: _ => some (parseHost h)

/-- PTZ patrol value record (spec §3), as pinned by
`tests/test_ptz.py` (`id`, `name` from `patrolName`, `enabled`). -/
structure PTZPatrolInfo where
  id : Nat
  name : String
  enabled : Bool
deriving DecidableEq, Repr

/-- One `PTZPatrol` element deserialized into a `PTZPatrolInfo`. -/
def parsePatrol (n : XNode) : PTZPatrolInfo :=
  { id := ((xtext n "id").bind strToNat).getD 0
    name := (xtext n "patrolName").getD ""
    enabled := (xtext n "enabled").getD "" = "true" }

/-- Modelled from the spec: the patrol listing reads the `PTZPatrol`
children of `PTZPatrolList` through the always-list pass and deserializes
each in vendor-reported order (§4.2). -/
def get_ptz_patrols (root : XNode) : List PTZPatrolInfo :=
  (ensureList ((xfind root "PTZPatrolList").bind
    (fun l => xfind l "PTZPatrol"))).map parsePatrol

/-- Two-way-audio channel record (spec §3/§9 `TwoWayAudioInfo`), fields
and defaults as pinned by `tests/test_two_way_audio.py`. -/
structure TwoWayAudioInfo where
  id : Nat
  enabled : Bool
  audio_compression_type : String := "G.711ulaw"
  audio_input_type : String := "MicIn"
  speaker_volume : Nat := 50
  noisereduce : Bool := false
deriving DecidableEq, Repr

/-- One `TwoWayAudioChannel` element deserialized into a
`TwoWayAudioInfo`, absent fields taking the record's defaults. -/
def parseTwoWayAudioChannel (n : XNode) : TwoWayAudioInfo :=
  { id := ((xtext n "id").bind strToNat).getD 0
    enabled := (xtext n "enabled").getD "" = "true"
    audio_compression_type := (xtext n "audioCompressionType").getD "G.711ulaw"
    audio_input_type := (xtext n "audioInputType").getD "MicIn"
    speaker_volume := ((xtext n "speakerVolume").bind strToNat).getD 50
    noisereduce := (xtext n "noisereduce").getD "" = "true" }

/-- Modelled from the spec: two-way-audio discovery reads the
`TwoWayAudioChannel` children of `TwoWayAudioChannelList` through the
always-list pass, filtering nothing — disabled channels stay listed with
`enabled := false` (§4.2). -/
def get_two_way_audio_channels (root : XNode) : List TwoWayAudioInfo :=
  (ensureList ((xfind root "TwoWayAudioChannelList").bind
    (fun l => xfind l "TwoWayAudioChannel"))).map parseTwoWayAudioChannel

/-- Storage device record (spec §3 StorageInfo), fields as pinned by
`tests/test_isapi.py::test_storage`; `ip` is empty for local hdds and the
NAS address for network storage. -/
structure StorageInfo where
  id : Nat
  name : String
  type : String
  status : String
  capacity : Nat
  freespace : Nat
  property : String
  ip : String
deriving DecidableEq, Repr

/-- One `hdd` element of the storage response deserialized into a
`StorageInfo` (local disk: empty `ip`). -/
def parseHdd (n : XNode) : StorageInfo :=
  { id := ((xtext n "id").bind strToNat).getD 0
    name := (xtext n "hddName").getD ""
    type := (xtext n "hddType").getD ""
    status := (xtext n "status").getD ""
    capacity := ((xtext n "capacity").bind strToNat).getD 0
    freespace := ((xtext n "freeSpace").bind strToNat).getD 0
    property := (xtext n "property").getD ""
    ip := "" }

/-- One `nas` element of the storage response deserialized into a
`StorageInfo` (network storage: `type` from `nasType`, `ip` from
`ipAddress`). -/
def parseNas (n : XNode) : StorageInfo :=
  { id := ((xtext n "id").bind strToNat).getD 0
    name := (xtext n "path").getD ""
    type := (xtext n "nasType").getD "NFS"
    status := (xtext n "status").getD ""
    capacity := ((xtext n "capacity").bind strToNat).getD 0
    freespace := ((xtext n "freeSpace").bind strToNat).getD 0
    property := (xtext n "property").getD ""
    ip := (xtext n "ipAddress").getD "" }

/-- Modelled from the spec: the storage listing reads the `hdd` children
of `storage/hddList` and the `nas` children of `storage/nasList`, each
through the always-list pass, and concatenates the records (§4.2, §6
`ContentMgmt/Storage`). -/
def get_storage_devices (root : XNode) : List StorageInfo :=
  (ensureList (((xfind root "storage").bind
      (fun s => xfind s "hddList")).bind (fun l => xfind l "hdd"))).map parseHdd
    ++ (ensureList (((xfind root "storage").bind
      (fun s => xfind s "nasList")).bind (fun l => xfind l "nas"))).map parseNas

/-! ## Event alert parsing

Modelled from the spec (§4.2 `parse_event_notification`, §3 AlertInfo)
and pinned to `tests/test_anpr_face_recognition.py`; the implementing
module is not in the snapshot. -/

/-- Canonical parsed representation of one inbound notification (spec §3):
string fields absent from the payload are `none`, numeric
confidence/score fields absent from the payload are `0`; every field is
always part of the record. -/
structure AlertInfo where
  channel_id : Nat
  io_port_id : Nat
  event_id : String
  detection_target : Option String := none
  region_id : Nat := 0
  license_plate : Option String := none
  plate_confidence : Nat := 0
  plate_color : Option String := none
  plate_type : Option String := none
  vehicle_color : Option String := none
  person_name : Option String := none
  face_score : Nat := 0
  person_id : Option String := none
deriving DecidableEq, Repr

/-- Alias table mapping alternate vendor event-type spellings to the one
canonical key (spec §4.1/§4.2: `doorbellpress` → `videointercomevent`,
ANPR-driven payloads → `vehicledetection`, alternate face-recognition
shapes → `facedetection`). -/
def EVENT_ALIASES : List (String × String) :=
  [("anpr", "vehicledetection"),
   ("doorbellpress", "videointercomevent"),
   ("facesnap", "facedetection"),
   ("facematch", "facedetection")]

/-- Alias translation of a lower-cased raw event type. -/
def normalizeEventId (raw : String) : String :=
  (EVENT_ALIASES.lookup raw).getD raw

/-- Modelled from the spec: given one deserialized `EventNotificationAlert`
payload, produce one `AlertInfo`.  Mandatory channel/io-port/event-type
fields are read first (with the `dynChannelID`/`dynInputIOPortID`
aliases), then the event-type-specific sub-blocks (ANPR → license-plate
fields, face fields, detection region → target and region id), then the
event-id alias translation; absent fields default to `none`/`0`. -/
def parse_event_notification (root : XNode) : Except String AlertInfo :=
  match xfind root "EventNotificationAlert" with
  | none => .error "invalid event notification payload"
  | some alert =>
    match xtext alert "eventType" with
    | none => .error "missing eventType"
    | some rawType =>
      let anpr := xfind alert "ANPR"
      let regionEntry :=
        (ensureList ((xfind alert "DetectionRegionList").bind
          (fun l => xfind l "DetectionRegionEntry"))).head?
      let event_id0 := normalizeEventId (lowerStr rawType)
      .ok { channel_id :=
              (((xtext alert "channelID").orElse
                  (fun _ => xtext alert "dynChannelID")).bind strToNat).getD 0
            io_port_id :=
              (((xtext alert "inputIOPortID").orElse
                  (fun _ => xtext alert "dynInputIOPortID")).bind strToNat).getD 0
            event_id := if anpr.isSome then "vehicledetection" else event_id0
            detection_target := regionEntry.bind (fun entry => xtext entry "detectionTarget")
            region_id :=
              ((regionEntry.bind (fun entry => xtext entry "regionID")).bind
                strToNat).getD 0
            license_plate := anpr.bind (fun a => xtext a "licensePlate")
            plate_confidence :=
              ((anpr.bind (fun a => xtext a "confidenceLevel")).bind strToNat).getD 0
            plate_color := anpr.bind (fun a => xtext a "plateColor")
            plate_type := anpr.bind (fun a => xtext a "plateType")
            vehicle_color := anpr.bind (fun a => xtext a "vehicleColor")
            person_name := xtext alert "personName"
            face_score := ((xtext alert "faceScore").bind strToNat).getD 0
            person_id := xtext alert "personID" }

/-! ## Capability / device model builder

The target-detection helpers are translated from
`custom_components/hikvision_next/const.py`; the contents of the
`EVENTS_WITH_TARGET_DETECTION` table and the descriptor expansion live in
the `isapi` module, which is not in the snapshot, and are modelled from
the spec (§3 EventDescriptor invariant, §4.3) and the test suite
(`tests/test_target_detection.py`). -/

/-- Modelled from the spec: the "supports target detection" set of smart
event types (field/line/region-entrance/region-exiting detection support
human/vehicle targets; motion detection does not). -/
def EVENTS_WITH_TARGET_DETECTION : List String :=
  ["fielddetection", "linedetection", "regionentrance", "regionexiting"]

/-- Translated from `const.py`: membership in the target-detection set. -/
def supports_target_detection (event_id : String) : Bool :=
  EVENTS_WITH_TARGET_DETECTION.contains event_id

/-- Translated from `const.py`: target-specific id derived from a base id. -/
def get_target_event_id (base_event_id detection_target : String) : String :=
  base_event_id ++ "_" ++ detection_target

/-- The two supported detection targets. -/
def DETECTION_TARGETS : List String := ["human", "vehicle"]

/-- One entity descriptor per (channel, event-type, detection-target)
triple (spec §3). -/
structure EventDescriptor where
  id : String
  channel_id : Nat
  detection_target : Option String
  unique_id : String
deriving DecidableEq, Repr

/-- The stable unique id of the generic descriptor of an event on a
channel: device slug, channel id and event type joined by underscores, as
observed in `tests/test_target_detection.py`. -/
def baseUniqueId (device_slug : String) (channel_id : Nat) (event_id : String) : String :=
  device_slug ++ "_" ++ toString channel_id ++ "_" ++ event_id

/-- Modelled from the spec: expansion of one supported event type on one
channel into descriptors.  Event types in the target-detection set yield
one generic descriptor plus one per supported target, each target id
derived with `get_target_event_id`; other event types yield exactly the
generic descriptor. -/
def descriptorsFor (device_slug : String) (channel_id : Nat) (event_id : String) :
    List EventDescriptor :=
  let base := baseUniqueId device_slug channel_id event_id
  let generic : EventDescriptor :=
    { id := event_id, channel_id := channel_id, detection_target := none, unique_id := base }
  if supports_target_detection event_id then
    generic :: DETECTION_TARGETS.map (fun target =>
      { id := event_id, channel_id := channel_id, detection_target := some target
        unique_id := get_target_event_id base target })
  else [generic]

/-- Modelled from the spec: the device model's full descriptor list, built
by expanding each channel's supported event list. -/
def buildEventDescriptors (device_slug : String)
    (channels : List (Nat × List String)) : List EventDescriptor :=
  channels.flatMap (fun c => c.2.flatMap (descriptorsFor device_slug c.1))

/-! ## Entity states and the event notification dispatcher

Modelled from the spec (§4.4); `notifications.py` is not in the snapshot.
Entity state is the host's state store restricted to the binary sensors:
an association list from `unique_id` to on/off, absent entities off. -/

/-- Host entity-state store: unique id to on/off, absent entities off. -/
abbrev EntityStates := List (String × Bool)

/-- State of one entity, `false` (off) when never set. -/
def getEntityState (st : EntityStates) (uid : String) : Bool :=
  (st.lookup uid).getD false

/-- Replace one entity's state. -/
def setEntityState (st : EntityStates) (uid : String) (value : Bool) : EntityStates :=
  (uid, value) :: st.filter (fun p => p.1 != uid)

/-- Descriptor resolution by (channel, event type, detection target). -/
def findDescriptor (ds : List EventDescriptor) (ch : Nat) (event_id : String)
    (target : Option String) : Option EventDescriptor :=
  ds.find? (fun d => d.channel_id == ch && d.id == event_id && d.detection_target == target)

/-- Modelled from the spec (§4.4 step 3): resolve the generic descriptor
for `(channel_id, event_id)`; if none exists, no state change; otherwise
set the generic entity on and, when the alert carries a detection target
for which a target-specific descriptor exists, set that entity on as
well.  No other entity is touched. -/
def dispatchAlert (ds : List EventDescriptor) (alert : AlertInfo)
    (st : EntityStates) : EntityStates :=
  match findDescriptor ds alert.channel_id alert.event_id none with
  | none => st
  | some generic =>
    let st1 := setEntityState st generic.unique_id true
    match alert.detection_target with
    | none => st1
    | some target =>
      match findDescriptor ds alert.channel_id alert.event_id (some target) with
      | none => st1
      | some specific => setEntityState st1 specific.unique_id true

/-! ## Auto-reset timer registry

Modelled from the spec (§4.5); `notifications.py` is not in the snapshot.
The registry pairs the process-wide pending-timer map (entity id to
scheduled fire time) with the entity-state store the reset callback
writes to. -/

/-- Fixed process-wide auto-reset timeout constant
(`EVENT_AUTO_RESET_TIMEOUT`; its numeric value is not fixed by the
snapshot and no property below depends on it). -/
def EVENT_AUTO_RESET_TIMEOUT : Nat := 30

/-- The auto-reset registry: pending timers (entity id, absolute fire
time) plus the entity states the fire callback reads and writes. -/
structure ResetRegistry where
  pending : List (String × Nat)
  states : EntityStates

/-- Whether an entity has a pending reset timer. -/
def hasPendingReset (r : ResetRegistry) (eid : String) : Bool :=
  r.pending.any (fun p => p.1 == eid)

/-- Number of pending reset timers held for one entity. -/
def pendingResetsFor (r : ResetRegistry) (eid : String) : Nat :=
  (r.pending.filter (fun p => p.1 == eid)).length

/-- Total number of pending reset timers. -/
def getPendingResetsCount (r : ResetRegistry) : Nat :=
  r.pending.length

/-- Modelled from the spec: cancel every pending timer, leaving the
registry empty (teardown path). -/
def cancelAllPendingResets (r : ResetRegistry) : ResetRegistry :=
  { r with pending := [] }

/-- Modelled from the spec: `arm(entity_id)` cancels any existing pending
timer for the entity, then schedules a new one firing a fixed timeout
after the current time. -/
def armReset (r : ResetRegistry) (eid : String) (now : Nat) : ResetRegistry :=
  { r with pending :=
      (eid, now + EVENT_AUTO_RESET_TIMEOUT) :: r.pending.filter (fun p => p.1 != eid) }

/-- Modelled from the spec: on fire, the entity's pending entry is
removed and its current state re-checked; only when still on is it set
off, otherwise nothing happens (idempotent, no error). -/
def fireReset (r : ResetRegistry) (eid : String) : ResetRegistry :=
  let r1 : ResetRegistry := { r with pending := r.pending.filter (fun p => p.1 != eid) }
  if getEntityState r.states eid then
    { r1 with states := setEntityState r1.states eid false }
  else r1

/-- Entities whose scheduled fire time has been reached at time `t`. -/
def dueList (r : ResetRegistry) (t : Nat) : List String :=
  (r.pending.filter (fun p => decide (p.2 ≤ t))).map Prod.fst

/-- Advance the clock to time `t`: every timer due by `t` fires. -/
def advanceTo (r : ResetRegistry) (t : Nat) : ResetRegistry :=
  (dueList r t).foldl fireReset r

/-- Modelled from the spec (§4.4 steps 3 and 5): one inbound notification
for an entity at time `t`, after any timers already due by `t` have
fired: the entity is set on and its auto-reset timer is (re)armed. -/
def notifyEvent (r : ResetRegistry) (eid : String) (t : Nat) : ResetRegistry :=
  let r1 := advanceTo r t
  armReset { r1 with states := setEntityState r1.states eid true } eid t

/-- The empty registry at process start. -/
def initRegistry : ResetRegistry := { pending := [], states := [] }

/-- A finite sequence of inbound notifications for one entity, processed
in arrival order from process start. -/
def runNotifs (eid : String) (ts : List Nat) : ResetRegistry :=
  ts.foldl (fun r t => notifyEvent r eid t) initRegistry

/-- Field of the body a completed operation sent; `none` when the
operation failed before building a request. -/
def sentField (r : Except NotSupportedError HttpRequest) (key : String) : Option String :=
  match r with
  | .ok req => bodyField req key
  | .error _ => none

/-- The deserialized minimal ANPR notification of
`tests/test_anpr_face_recognition.py` (`test_parse_anpr_event_minimal`):
only the required tags plus `licensePlate` and `confidenceLevel`. -/
def minimalAnprPayload : XNode :=
  .elem [("EventNotificationAlert", .elem
    [("channelID", .text "2"),
     ("eventType", .text "ANPR"),
     ("ANPR", .elem
       [("licensePlate", .text "XYZ-9999"),
        ("confidenceLevel", .text "80")])])]

/-! ## General lemmas -/

theorem filter_bne_then_beq {α : Type} (l : List (String × α)) (e : String) :
    (l.filter (fun p => p.1 != e)).filter (fun p => p.1 == e) = [] := by
  rw [List.filter_filter]
  refine List.filter_eq_nil_iff.mpr ?_
  intro a _
  cases h : a.1 == e
  · simp [h]
  · simp [eq_of_beq h]

theorem any_beq_filter_bne {α : Type} (l : List (String × α)) (e : String) :
    ((l.filter (fun p => p.1 != e)).any (fun p => p.1 == e)) = false := by
  rw [List.any_eq_false]
  intro a ha hbeq
  have hne : a.1 ≠ e := by simpa using (List.mem_filter.mp ha).2
  exact hne (eq_of_beq hbeq)

theorem lookup_filter_bne {α : Type} (u u' : String) (h : u' ≠ u)
    (l : List (String × α)) :
    List.lookup u' (l.filter (fun p => p.1 != u)) = List.lookup u' l := by
  induction l with
  | nil => rfl
  | cons a t ih =>
    obtain ⟨k, v⟩ := a
    by_cases hk : k = u
    · subst hk
      have h1 : ((k, v).1 != k) = false := by simp
      have h2 : (u' == k) = false := by
        simp only [beq_eq_false_iff_ne]
        exact h
      rw [List.filter_cons, h1]
      simp only [Bool.false_eq_true, if_false, List.lookup_cons, h2]
      exact ih
    · have h1 : ((k, v).1 != u) = true := by simpa using hk
      rw [List.filter_cons, h1]
      simp only [if_true, List.lookup_cons]
      cases hke : u' == k
      · simpa only [hke] using ih
      · rfl

theorem getEntityState_set_same (st : EntityStates) (u : String) (b : Bool) :
    getEntityState (setEntityState st u b) u = b := by
  simp [getEntityState, setEntityState, List.lookup_cons_self]

theorem getEntityState_set_other (st : EntityStates) (u u' : String) (b : Bool)
    (h : u' ≠ u) : getEntityState (setEntityState st u b) u' = getEntityState st u' := by
  unfold getEntityState setEntityState
  have h2 : (u' == u) = false := by
    simp only [beq_eq_false_iff_ne]
    exact h
  rw [List.lookup_cons]
  simp only [h2, Bool.false_eq_true, if_false]
  rw [lookup_filter_bne u u' h st]

/-! ## Claim theorems -/

/-- C10: when the isapi_request action's device call fails with an HTTP
error (HTTPStatusError, forbidden or unauthorized), the handler does not
raise: the error response's body — UTF-8 decoded when it is bytes — with
every carriage-return character removed becomes the action's
`{"data": ...}` response, so the action always yields a data result. -/
theorem isapi_request_returns_error_body (c : ResponseContent) (s : String) :
    handle_isapi_request (.httpStatusError c)
        = .ok [("data", removeCR (decodeContent c))] ∧
    handle_isapi_request (.forbidden c)
        = .ok [("data", removeCR (decodeContent c))] ∧
    handle_isapi_request (.unauthorized c)
        = .ok [("data", removeCR (decodeContent c))] ∧
    handle_isapi_request (.httpStatusError (.bytes s))
        = .ok [("data", removeCR s)] ∧
    (removeCR s).data.all (fun ch => ch != '\r') = true := by
  refine ⟨rfl, rfl, rfl, rfl, ?_⟩
  have hdata : (removeCR s).data = s.data.filter (fun ch => ch != '\r') := rfl
  rw [hdata, List.all_eq_true]
  intro x hx
  exact (List.mem_filter.mp hx).2

/-- C2: each capability-gated control operation invoked while its
DeviceCapabilities flag is off fails with a NotSupportedError carrying the
missing feature's name, and the operation performs zero HTTP requests. -/
theorem capability_gating_no_request (caps : DeviceCapabilities)
    (d a v t : Int) (ch : Nat) (freq : String)
    (hs : caps.support_siren = false)
    (hb : caps.support_strobe = false)
    (hv : caps.support_voice = false) :
    trigger_siren caps d a v t
        = .error { feature := "siren", message := "Device does not support siren" } ∧
    requestsMade (trigger_siren caps d a v t) = [] ∧
    trigger_strobe caps ch d freq
        = .error { feature := "strobe", message := "Device does not support strobe" } ∧
    requestsMade (trigger_strobe caps ch d freq) = [] ∧
    play_voice caps a v t
        = .error { feature := "voice", message := "Device does not support voice" } ∧
    requestsMade (play_voice caps a v t) = [] := by
  refine ⟨?_, ?_, ?_, ?_, ?_, ?_⟩ <;>
    simp [trigger_siren, trigger_strobe, play_voice, requestsMade, hs, hb, hv]

/-- C2 witness: a device with every capability flag unset rejects all
three operations without issuing a request. -/
theorem capability_gating_no_request_witness :
    trigger_siren {} 10 1 50 1
        = .error { feature := "siren", message := "Device does not support siren" } ∧
    requestsMade (trigger_siren {} 10 1 50 1) = [] ∧
    trigger_strobe {} 1 10 "medium"
        = .error { feature := "strobe", message := "Device does not support strobe" } ∧
    requestsMade (trigger_strobe {} 1 10 "medium") = [] ∧
    play_voice {} 1 50 1
        = .error { feature := "voice", message := "Device does not support voice" } ∧
    requestsMade (play_voice {} 1 50 1) = [] :=
  capability_gating_no_request {} 10 1 50 1 1 "medium" rfl rfl rfl

/-- C3: the numeric values placed in the outgoing siren/voice request
body are the integer inputs clamped to the nearest bound of their
documented ranges — duration to [1,300], volume to [1,100], alarm repeat
count to [1,10] — never rejected: the sent value lies inside the range,
equals the input when the input is in range, and equals the violated
bound otherwise; in particular duration 0 is sent as "1", duration 500 as
"300", volume 0 as "1" and volume 150 as "100". -/
theorem deterrence_parameter_clamping (caps : DeviceCapabilities)
    (d a v t : Int) (hs : caps.support_siren = true)
    (hv : caps.support_voice = true) :
    sentField (trigger_siren caps d a v t) "durationTime"
        = some (toString (clampInt 1 300 d)) ∧
    sentField (trigger_siren caps d a v t) "audioVolume"
        = some (toString (clampInt 1 100 v)) ∧
    sentField (trigger_siren caps d a v t) "alarmTimes"
        = some (toString (clampInt 1 10 t)) ∧
    sentField (play_voice caps a v t) "audioVolume"
        = some (toString (clampInt 1 100 v)) ∧
    sentField (play_voice caps a v t) "alarmTimes"
        = some (toString (clampInt 1 10 t)) ∧
    (∀ lo hi x : Int, lo ≤ hi →
      lo ≤ clampInt lo hi x ∧ clampInt lo hi x ≤ hi ∧
      (x < lo → clampInt lo hi x = lo) ∧
      (hi < x → clampInt lo hi x = hi) ∧
      (lo ≤ x → x ≤ hi → clampInt lo hi x = x)) ∧
    sentField (trigger_siren { support_siren := true } 0 1 50 1) "durationTime"
        = some "1" ∧
    sentField (trigger_siren { support_siren := true } 500 1 50 1) "durationTime"
        = some "300" ∧
    sentField (trigger_siren { support_siren := true } 10 1 0 1) "audioVolume"
        = some "1" ∧
    sentField (trigger_siren { support_siren := true } 10 1 150 1) "audioVolume"
        = some "100" := by
  have hsiren : ∀ key, sentField (trigger_siren caps d a v t) key
      = List.lookup key
          [("audioID", toString a),
           ("audioVolume", toString (clampInt 1 100 v)),
           ("alarmTimes", toString (clampInt 1 10 t)),
           ("durationTime", toString (clampInt 1 300 d))] := by
    intro key
    unfold sentField trigger_siren
    rw [hs]
    rfl
  have hvoice : ∀ key, sentField (play_voice caps a v t) key
      = List.lookup key
          [("audioID", toString a),
           ("audioVolume", toString (clampInt 1 100 v)),
           ("alarmTimes", toString (clampInt 1 10 t)),
           ("audioClass", "alertAudio"),
           ("alertAudioID", toString a)] := by
    intro key
    unfold sentField play_voice
    rw [hv]
    rfl
  refine ⟨by rw [hsiren]; rfl, by rw [hsiren]; rfl, by rw [hsiren]; rfl,
          by rw [hvoice]; rfl, by rw [hvoice]; rfl, ?_, rfl, rfl, rfl, rfl⟩
  intro lo hi x hlohi
  unfold clampInt
  refine ⟨le_max_left _ _, max_le hlohi (min_le_right _ _), ?_, ?_, ?_⟩
  · intro hx
    rw [min_eq_left (le_trans hx.le hlohi), max_eq_left hx.le]
  · intro hx
    rw [min_eq_right hx.le]
    exact max_eq_right hlohi
  · intro h1 h2
    rw [min_eq_left h2, max_eq_right h1]

/-- C3 witness: with siren and voice supported, duration 0 is clamped up
to 1 and volume 150 down to 100 in the sent body. -/
theorem deterrence_parameter_clamping_witness :
    sentField (trigger_siren { support_siren := true, support_voice := true } 0 1 150 20)
        "durationTime" = some (toString (clampInt 1 300 0)) ∧
    sentField (trigger_siren { support_siren := true, support_voice := true } 0 1 150 20)
        "audioVolume" = some (toString (clampInt 1 100 150)) ∧
    toString (clampInt 1 300 (0 : Int)) = "1" ∧
    toString (clampInt 1 100 (150 : Int)) = "100" := by
  obtain ⟨h1, h2, -⟩ := deterrence_parameter_clamping
    { support_siren := true, support_voice := true } 0 1 150 20 rfl rfl
  exact ⟨h1, h2, rfl, rfl⟩

/-- C7: when an entity's state was already set off before its pending
auto-reset timer fires, the firing is an idempotent no-op: the
entity-state store is untouched (so the state remains off, with no second
transition) and the pending entry is simply discarded; `fireReset` is a
total function, so no error can arise. -/
theorem fire_on_off_entity_is_noop (r : ResetRegistry) (eid : String)
    (hoff : getEntityState r.states eid = false) :
    (fireReset r eid).states = r.states ∧
    getEntityState (fireReset r eid).states eid = false ∧
    hasPendingReset (fireReset r eid) eid = false := by
  have hfr : fireReset r eid
      = { r with pending := r.pending.filter (fun p => p.1 != eid) } := by
    unfold fireReset
    rw [hoff]
    simp
  rw [hfr]
  exact ⟨rfl, hoff, any_beq_filter_bne r.pending eid⟩

/-- C7 witness: an entity that was turned off externally while its timer
was still pending is untouched by the timer's firing. -/
theorem fire_on_off_entity_is_noop_witness :
    (fireReset { pending := [("a", 10)], states := [("a", false)] } "a").states
        = [("a", false)] ∧
    getEntityState
      (fireReset { pending := [("a", 10)], states := [("a", false)] } "a").states "a"
        = false ∧
    hasPendingReset (fireReset { pending := [("a", 10)], states := [("a", false)] } "a") "a"
        = false :=
  fire_on_off_entity_is_noop { pending := [("a", 10)], states := [("a", false)] } "a" rfl

/-- C8 counterexample: with two-way audio supported, `send_audio_data`
applied to the empty payload performs no forwarding at all — it returns
failure without building any request — so the empty payload is not
forwarded to the audioData endpoint as claimed. -/
theorem send_audio_data_empty_not_forwarded :
    send_audio_data { support_two_way_audio := true } [] 1 = none := rfl

/-- C8 amended: for every NON-empty byte payload passed to
`send_audio_data` while two-way audio is supported, the request carries
content-type application/octet-stream and the byte payload verbatim to
the channel's audioData endpoint; the empty payload is instead rejected
with a failure result and no request. -/
theorem send_audio_data_forwards_verbatim (caps : DeviceCapabilities)
    (payload : List Nat) (ch : Nat)
    (hcap : caps.support_two_way_audio = true) (hne : payload ≠ []) :
    send_audio_data caps payload ch =
      some { method := "PUT"
             path := "System/TwoWayAudio/channels/" ++ toString ch ++ "/audioData"
             headers := [("content-type", "application/octet-stream")]
             rawBody := payload } ∧
    send_audio_data caps [] ch = none := by
  constructor
  · unfold send_audio_data
    rw [hcap]
    simp [hne]
  · unfold send_audio_data
    rw [hcap]
    simp

/-- C8 witness: a three-byte payload is forwarded verbatim with the
octet-stream content type. -/
theorem send_audio_data_forwards_verbatim_witness :
    send_audio_data { support_two_way_audio := true } [255, 0, 1] 1 =
      some { method := "PUT"
             path := "System/TwoWayAudio/channels/" ++ toString 1 ++ "/audioData"
             headers := [("content-type", "application/octet-stream")]
             rawBody := [255, 0, 1] } ∧
    send_audio_data { support_two_way_audio := true } [] 1 = none :=
  send_audio_data_forwards_verbatim { support_two_way_audio := true } [255, 0, 1] 1
    rfl (by decide)

/-- C9: the minimal ANPR payload carrying only the required tags plus
licensePlate and confidenceLevel parses successfully into an AlertInfo
with event_id "vehicledetection", the plate and confidence carried
through with their proper types, and every absent optional field
defaulted — plate_color and plate_type none, the other string fields
none, numeric confidence/score fields 0 — while remaining part of the
record's field set. -/
theorem anpr_minimal_payload_parses_with_defaults :
    parse_event_notification minimalAnprPayload =
      .ok { channel_id := 2, io_port_id := 0, event_id := "vehicledetection",
            detection_target := none, region_id := 0,
            license_plate := some "XYZ-9999", plate_confidence := 80,
            plate_color := none, plate_type := none, vehicle_color := none,
            person_name := none, face_score := 0, person_id := none } := rfl

/-- C6: for every list-returning ISAPI parse — PTZ presets, PTZ patrols,
two-way-audio channels, storage, notification hosts — a vendor response
whose repeatable group holds exactly one (collapsed, non-list) child
element yields a one-element list of the same record shape as a
multi-element response, never a bare object: the single-child parse is a
list of length 1 whose element equals the head record of the
corresponding multi-element parse; in particular a PTZPresetList with a
single PTZPreset parses to a list of length 1, and an NVR's collapsed
single-item httpHosts response normalizes to the same canonical record
as a multi-camera list response with the same first host. -/
theorem single_item_collapse
    (presetFields hostFields patrolFields audioFields hddFields :
      List (String × XNode))
    (presetRest hostRest patrolRest audioRest hddRest : List XNode)
    (hname : (parsePreset (.elem presetFields)).name ≠ "") :
    get_ptz_presets
        (.elem [("PTZPresetList", .elem [("PTZPreset", .elem presetFields)])])
      = [parsePreset (.elem presetFields)] ∧
    (get_ptz_presets
        (.elem [("PTZPresetList", .elem [("PTZPreset", .elem presetFields)])])).length
      = 1 ∧
    (get_ptz_presets
        (.elem [("PTZPresetList",
          .elem [("PTZPreset", .list (.elem presetFields :: presetRest))])])).head?
      = some (parsePreset (.elem presetFields)) ∧
    get_alarm_server
        (.elem [("HttpHostNotificationList",
          .elem [("HttpHostNotification", .elem hostFields)])])
      = some (parseHost (.elem hostFields)) ∧
    get_alarm_server
        (.elem [("HttpHostNotificationList",
          .elem [("HttpHostNotification", .list (.elem hostFields :: hostRest))])])
      = some (parseHost (.elem hostFields)) ∧
    get_ptz_patrols
        (.elem [("PTZPatrolList", .elem [("PTZPatrol", .elem patrolFields)])])
      = [parsePatrol (.elem patrolFields)] ∧
    (get_ptz_patrols
        (.elem [("PTZPatrolList", .elem [("PTZPatrol", .elem patrolFields)])])).length
      = 1 ∧
    (get_ptz_patrols
        (.elem [("PTZPatrolList",
          .elem [("PTZPatrol", .list (.elem patrolFields :: patrolRest))])])).head?
      = some (parsePatrol (.elem patrolFields)) ∧
    get_two_way_audio_channels
        (.elem [("TwoWayAudioChannelList",
          .elem [("TwoWayAudioChannel", .elem audioFields)])])
      = [parseTwoWayAudioChannel (.elem audioFields)] ∧
    (get_two_way_audio_channels
        (.elem [("TwoWayAudioChannelList",
          .elem [("TwoWayAudioChannel", .elem audioFields)])])).length
      = 1 ∧
    (get_two_way_audio_channels
        (.elem [("TwoWayAudioChannelList",
          .elem [("TwoWayAudioChannel",
            .list (.elem audioFields :: audioRest))])])).head?
      = some (parseTwoWayAudioChannel (.elem audioFields)) ∧
    get_storage_devices
        (.elem [("storage", .elem [("hddList", .elem [("hdd", .elem hddFields)])])])
      = [parseHdd (.elem hddFields)] ∧
    (get_storage_devices
        (.elem [("storage",
          .elem [("hddList", .elem [("hdd", .elem hddFields)])])])).length
      = 1 ∧
    (get_storage_devices
        (.elem [("storage",
          .elem [("hddList",
            .elem [("hdd", .list (.elem hddFields :: hddRest))])])])).head?
      = some (parseHdd (.elem hddFields)) := by
  have hb : ((parsePreset (.elem presetFields)).name != "") = true := by
    simpa using hname
  have hsingle : get_ptz_presets
      (.elem [("PTZPresetList", .elem [("PTZPreset", .elem presetFields)])])
      = List.filter (fun p => p.name != "") [parsePreset (.elem presetFields)] := rfl
  have hfilter : List.filter (fun p => p.name != "") [parsePreset (.elem presetFields)]
      = [parsePreset (.elem presetFields)] := by
    rw [List.filter_cons, hb]
    simp
  have hmulti : get_ptz_presets
      (.elem [("PTZPresetList",
        .elem [("PTZPreset", .list (.elem presetFields :: presetRest))])])
      = List.filter (fun p => p.name != "")
          (parsePreset (.elem presetFields) :: presetRest.map parsePreset) := rfl
  refine ⟨?_, ?_, ?_, rfl, rfl, rfl, rfl, rfl, rfl, rfl, rfl, rfl, rfl, rfl⟩
  · rw [hsingle, hfilter]
  · rw [hsingle, hfilter]
    rfl
  · rw [hmulti, List.filter_cons, hb]
    simp

/-- C6 witness: the test fixture's single `Home` preset and a single-host
httpHosts response both normalize through the one-element-list path. -/
theorem single_item_collapse_witness :
    get_ptz_presets
        (.elem [("PTZPresetList", .elem [("PTZPreset",
          .elem [("id", .text "1"), ("presetName", .text "Home"),
                 ("enabled", .text "true")])])])
      = [parsePreset (.elem [("id", .text "1"), ("presetName", .text "Home"),
                             ("enabled", .text "true")])] ∧
    (get_ptz_presets
        (.elem [("PTZPresetList", .elem [("PTZPreset",
          .elem [("id", .text "1"), ("presetName", .text "Home"),
                 ("enabled", .text "true")])])])).length
      = 1 ∧
    (get_ptz_presets
        (.elem [("PTZPresetList", .elem [("PTZPreset",
          .list [.elem [("id", .text "1"), ("presetName", .text "Home"),
                        ("enabled", .text "true")]])])])).head?
      = some (parsePreset (.elem [("id", .text "1"), ("presetName", .text "Home"),
                                  ("enabled", .text "true")])) ∧
    get_alarm_server
        (.elem [("HttpHostNotificationList",
          .elem [("HttpHostNotification",
            .elem [("protocolType", .text "HTTP"), ("ipAddress", .text "1.0.0.11"),
                   ("portNo", .text "8123"), ("url", .text "/api/hikvision")])])])
      = some (parseHost
          (.elem [("protocolType", .text "HTTP"), ("ipAddress", .text "1.0.0.11"),
                  ("portNo", .text "8123"), ("url", .text "/api/hikvision")])) ∧
    get_alarm_server
        (.elem [("HttpHostNotificationList",
          .elem [("HttpHostNotification",
            .list [.elem [("protocolType", .text "HTTP"), ("ipAddress", .text "1.0.0.11"),
                          ("portNo", .text "8123"), ("url", .text "/api/hikvision")]])])])
      = some (parseHost
          (.elem [("protocolType", .text "HTTP"), ("ipAddress", .text "1.0.0.11"),
                  ("portNo", .text "8123"), ("url", .text "/api/hikvision")])) ∧
    get_ptz_patrols
        (.elem [("PTZPatrolList", .elem [("PTZPatrol",
          .elem [("id", .text "1"), ("patrolName", .text "Perimeter Patrol"),
                 ("enabled", .text "true")])])])
      = [parsePatrol (.elem [("id", .text "1"),
                             ("patrolName", .text "Perimeter Patrol"),
                             ("enabled", .text "true")])] ∧
    (get_ptz_patrols
        (.elem [("PTZPatrolList", .elem [("PTZPatrol",
          .elem [("id", .text "1"), ("patrolName", .text "Perimeter Patrol"),
                 ("enabled", .text "true")])])])).length
      = 1 ∧
    get_two_way_audio_channels
        (.elem [("TwoWayAudioChannelList", .elem [("TwoWayAudioChannel",
          .elem [("id", .text "1"), ("enabled", .text "true"),
                 ("audioCompressionType", .text "G.711ulaw"),
                 ("audioInputType", .text "MicIn"),
                 ("speakerVolume", .text "75"),
                 ("noisereduce", .text "true")])])])
      = [parseTwoWayAudioChannel
          (.elem [("id", .text "1"), ("enabled", .text "true"),
                  ("audioCompressionType", .text "G.711ulaw"),
                  ("audioInputType", .text "MicIn"),
                  ("speakerVolume", .text "75"),
                  ("noisereduce", .text "true")])] ∧
    (get_two_way_audio_channels
        (.elem [("TwoWayAudioChannelList", .elem [("TwoWayAudioChannel",
          .elem [("id", .text "1"), ("enabled", .text "true"),
                 ("audioCompressionType", .text "G.711ulaw"),
                 ("audioInputType", .text "MicIn"),
                 ("speakerVolume", .text "75"),
                 ("noisereduce", .text "true")])])])).length
      = 1 ∧
    get_storage_devices
        (.elem [("storage", .elem [("hddList", .elem [("hdd",
          .elem [("id", .text "1"), ("hddName", .text "hdd1"),
                 ("hddType", .text "SATA"), ("status", .text "ok"),
                 ("capacity", .text "1907729"), ("freeSpace", .text "0"),
                 ("property", .text "RW")])])])])
      = [parseHdd (.elem [("id", .text "1"), ("hddName", .text "hdd1"),
                          ("hddType", .text "SATA"), ("status", .text "ok"),
                          ("capacity", .text "1907729"), ("freeSpace", .text "0"),
                          ("property", .text "RW")])] ∧
    (get_storage_devices
        (.elem [("storage", .elem [("hddList", .elem [("hdd",
          .elem [("id", .text "1"), ("hddName", .text "hdd1"),
                 ("hddType", .text "SATA"), ("status", .text "ok"),
                 ("capacity", .text "1907729"), ("freeSpace", .text "0"),
                 ("property", .text "RW")])])])])).length
      = 1 := by
  have h := single_item_collapse
    [("id", .text "1"), ("presetName", .text "Home"), ("enabled", .text "true")]
    [("protocolType", .text "HTTP"), ("ipAddress", .text "1.0.0.11"),
     ("portNo", .text "8123"), ("url", .text "/api/hikvision")]
    [("id", .text "1"), ("patrolName", .text "Perimeter Patrol"),
     ("enabled", .text "true")]
    [("id", .text "1"), ("enabled", .text "true"),
     ("audioCompressionType", .text "G.711ulaw"),
     ("audioInputType", .text "MicIn"),
     ("speakerVolume", .text "75"), ("noisereduce", .text "true")]
    [("id", .text "1"), ("hddName", .text "hdd1"), ("hddType", .text "SATA"),
     ("status", .text "ok"), ("capacity", .text "1907729"),
     ("freeSpace", .text "0"), ("property", .text "RW")]
    [] [] [] [] [] (by decide)
  obtain ⟨h1, h2, h3, h4, h5, h6, h7, -, h8, h9, -, h10, h11, -⟩ := h
  exact ⟨h1, h2, h3, h4, h5, h6, h7, h8, h9, h10, h11⟩

theorem get_target_event_id_length (b t : String) :
    (get_target_event_id b t).length = b.length + 1 + t.length := by
  unfold get_target_event_id
  rw [String.length_append, String.length_append]
  have h1 : ("_" : String).length = 1 := rfl
  rw [h1]

theorem target_uids_distinct (b : String) :
    get_target_event_id b "human" ≠ b ∧
    get_target_event_id b "vehicle" ≠ b ∧
    get_target_event_id b "vehicle" ≠ get_target_event_id b "human" := by
  have hh := get_target_event_id_length b "human"
  have hv := get_target_event_id_length b "vehicle"
  have h5 : ("human" : String).length = 5 := rfl
  have h7 : ("vehicle" : String).length = 7 := rfl
  rw [h5] at hh
  rw [h7] at hv
  refine ⟨?_, ?_, ?_⟩
  · intro heq
    have hlen := congrArg String.length heq
    rw [hh] at hlen
    omega
  · intro heq
    have hlen := congrArg String.length heq
    rw [hv] at hlen
    omega
  · intro heq
    have hlen := congrArg String.length heq
    rw [hv, hh] at hlen
    omega

theorem descriptorsFor_target_expansion (slug : String) (ch : Nat) (e : String)
    (hsup : supports_target_detection e = true) :
    descriptorsFor slug ch e =
      [{ id := e, channel_id := ch, detection_target := none,
         unique_id := baseUniqueId slug ch e },
       { id := e, channel_id := ch, detection_target := some "human",
         unique_id := get_target_event_id (baseUniqueId slug ch e) "human" },
       { id := e, channel_id := ch, detection_target := some "vehicle",
         unique_id := get_target_event_id (baseUniqueId slug ch e) "vehicle" }] := by
  unfold descriptorsFor
  rw [hsup]
  rfl

theorem descriptorsFor_generic_only (slug : String) (ch : Nat) (e : String)
    (hsup : supports_target_detection e = false) :
    descriptorsFor slug ch e =
      [{ id := e, channel_id := ch, detection_target := none,
         unique_id := baseUniqueId slug ch e }] := by
  unfold descriptorsFor
  rw [hsup]
  rfl

theorem findDescriptor_generic (slug : String) (ch : Nat) (e : String)
    (hsup : supports_target_detection e = true) :
    findDescriptor (descriptorsFor slug ch e) ch e none
      = some { id := e, channel_id := ch, detection_target := none,
               unique_id := baseUniqueId slug ch e } := by
  rw [descriptorsFor_target_expansion slug ch e hsup]
  unfold findDescriptor
  exact List.find?_cons_of_pos _ (by simp)

theorem findDescriptor_human (slug : String) (ch : Nat) (e : String)
    (hsup : supports_target_detection e = true) :
    findDescriptor (descriptorsFor slug ch e) ch e (some "human")
      = some { id := e, channel_id := ch, detection_target := some "human",
               unique_id := get_target_event_id (baseUniqueId slug ch e) "human" } := by
  rw [descriptorsFor_target_expansion slug ch e hsup]
  unfold findDescriptor
  rw [List.find?_cons_of_neg _ (by simp)]
  exact List.find?_cons_of_pos _ (by simp)

theorem findDescriptor_vehicle (slug : String) (ch : Nat) (e : String)
    (hsup : supports_target_detection e = true) :
    findDescriptor (descriptorsFor slug ch e) ch e (some "vehicle")
      = some { id := e, channel_id := ch, detection_target := some "vehicle",
               unique_id := get_target_event_id (baseUniqueId slug ch e) "vehicle" } := by
  rw [descriptorsFor_target_expansion slug ch e hsup]
  unfold findDescriptor
  rw [List.find?_cons_of_neg _ (by simp)]
  rw [List.find?_cons_of_neg _ (by simp)]
  exact List.find?_cons_of_pos _ (by simp)

theorem dispatchAlert_with_target (ds : List EventDescriptor) (alert : AlertInfo)
    (st : EntityStates) (g s : EventDescriptor) (target : String)
    (hg : findDescriptor ds alert.channel_id alert.event_id none = some g)
    (ht : alert.detection_target = some target)
    (hs : findDescriptor ds alert.channel_id alert.event_id (some target) = some s) :
    dispatchAlert ds alert st
      = setEntityState (setEntityState st g.unique_id true) s.unique_id true := by
  simp only [dispatchAlert, hg, ht, hs]

theorem dispatchAlert_no_target (ds : List EventDescriptor) (alert : AlertInfo)
    (st : EntityStates) (g : EventDescriptor)
    (hg : findDescriptor ds alert.channel_id alert.event_id none = some g)
    (ht : alert.detection_target = none) :
    dispatchAlert ds alert st = setEntityState st g.unique_id true := by
  simp only [dispatchAlert, hg, ht]

/-- C5: dispatch isolation on a target-detection event's descriptor set:
a notification with detection_target human sets the generic and human
entities on while the vehicle entity's state is unchanged (off if it was
off); symmetrically for vehicle; a notification without a
detection_target sets only the generic entity on, leaving both
target-specific entities unchanged. -/
theorem dispatch_isolation (slug : String) (ch : Nat) (e : String) (st : EntityStates)
    (hsup : supports_target_detection e = true) :
    (getEntityState (dispatchAlert (descriptorsFor slug ch e)
        { channel_id := ch, io_port_id := 0, event_id := e,
          detection_target := some "human" } st) (baseUniqueId slug ch e) = true ∧
     getEntityState (dispatchAlert (descriptorsFor slug ch e)
        { channel_id := ch, io_port_id := 0, event_id := e,
          detection_target := some "human" } st)
        (get_target_event_id (baseUniqueId slug ch e) "human") = true ∧
     getEntityState (dispatchAlert (descriptorsFor slug ch e)
        { channel_id := ch, io_port_id := 0, event_id := e,
          detection_target := some "human" } st)
        (get_target_event_id (baseUniqueId slug ch e) "vehicle")
       = getEntityState st (get_target_event_id (baseUniqueId slug ch e) "vehicle")) ∧
    (getEntityState (dispatchAlert (descriptorsFor slug ch e)
        { channel_id := ch, io_port_id := 0, event_id := e,
          detection_target := some "vehicle" } st) (baseUniqueId slug ch e) = true ∧
     getEntityState (dispatchAlert (descriptorsFor slug ch e)
        { channel_id := ch, io_port_id := 0, event_id := e,
          detection_target := some "vehicle" } st)
        (get_target_event_id (baseUniqueId slug ch e) "vehicle") = true ∧
     getEntityState (dispatchAlert (descriptorsFor slug ch e)
        { channel_id := ch, io_port_id := 0, event_id := e,
          detection_target := some "vehicle" } st)
        (get_target_event_id (baseUniqueId slug ch e) "human")
       = getEntityState st (get_target_event_id (baseUniqueId slug ch e) "human")) ∧
    (getEntityState (dispatchAlert (descriptorsFor slug ch e)
        { channel_id := ch, io_port_id := 0, event_id := e,
          detection_target := none } st) (baseUniqueId slug ch e) = true ∧
     getEntityState (dispatchAlert (descriptorsFor slug ch e)
        { channel_id := ch, io_port_id := 0, event_id := e,
          detection_target := none } st)
        (get_target_event_id (baseUniqueId slug ch e) "human")
       = getEntityState st (get_target_event_id (baseUniqueId slug ch e) "human") ∧
     getEntityState (dispatchAlert (descriptorsFor slug ch e)
        { channel_id := ch, io_port_id := 0, event_id := e,
          detection_target := none } st)
        (get_target_event_id (baseUniqueId slug ch e) "vehicle")
       = getEntityState st (get_target_event_id (baseUniqueId slug ch e) "vehicle")) := by
  obtain ⟨hhb, hvb, hvh⟩ := target_uids_distinct (baseUniqueId slug ch e)
  have hgen := findDescriptor_generic slug ch e hsup
  have hhum := findDescriptor_human slug ch e hsup
  have hveh := findDescriptor_vehicle slug ch e hsup
  have hH := dispatchAlert_with_target (descriptorsFor slug ch e)
    { channel_id := ch, io_port_id := 0, event_id := e, detection_target := some "human" }
    st _ _ "human" hgen rfl hhum
  have hV := dispatchAlert_with_target (descriptorsFor slug ch e)
    { channel_id := ch, io_port_id := 0, event_id := e, detection_target := some "vehicle" }
    st _ _ "vehicle" hgen rfl hveh
  have hG := dispatchAlert_no_target (descriptorsFor slug ch e)
    { channel_id := ch, io_port_id := 0, event_id := e, detection_target := none }
    st _ hgen rfl
  refine ⟨⟨?_, ?_, ?_⟩, ⟨?_, ?_, ?_⟩, ⟨?_, ?_, ?_⟩⟩
  · rw [hH, getEntityState_set_other _ _ _ _ (Ne.symm hhb), getEntityState_set_same]
  · rw [hH, getEntityState_set_same]
  · rw [hH, getEntityState_set_other _ _ _ _ hvh,
        getEntityState_set_other _ _ _ _ hvb]
  · rw [hV, getEntityState_set_other _ _ _ _ (Ne.symm hvb), getEntityState_set_same]
  · rw [hV, getEntityState_set_same]
  · rw [hV, getEntityState_set_other _ _ _ _ (Ne.symm hvh),
        getEntityState_set_other _ _ _ _ hhb]
  · rw [hG, getEntityState_set_same]
  · rw [hG, getEntityState_set_other _ _ _ _ hhb]
  · rw [hG, getEntityState_set_other _ _ _ _ hvb]

/-- C5 witness: on a fresh state, a human fielddetection notification
turns the generic and human entities on and leaves the vehicle entity
off. -/
theorem dispatch_isolation_witness :
    getEntityState (dispatchAlert (descriptorsFor "cam" 1 "fielddetection")
        { channel_id := 1, io_port_id := 0, event_id := "fielddetection",
          detection_target := some "human" } [])
        (baseUniqueId "cam" 1 "fielddetection") = true ∧
    getEntityState (dispatchAlert (descriptorsFor "cam" 1 "fielddetection")
        { channel_id := 1, io_port_id := 0, event_id := "fielddetection",
          detection_target := some "human" } [])
        (get_target_event_id (baseUniqueId "cam" 1 "fielddetection") "human") = true ∧
    getEntityState (dispatchAlert (descriptorsFor "cam" 1 "fielddetection")
        { channel_id := 1, io_port_id := 0, event_id := "fielddetection",
          detection_target := some "human" } [])
        (get_target_event_id (baseUniqueId "cam" 1 "fielddetection") "vehicle") = false := by
  obtain ⟨⟨h1, h2, h3⟩, -, -⟩ := dispatch_isolation "cam" 1 "fielddetection" [] (by decide)
  refine ⟨h1, h2, ?_⟩
  rw [h3]
  rfl

theorem descriptorsFor_channel_event (slug : String) (c : Nat) (ev : String) :
    ∀ d ∈ descriptorsFor slug c ev, d.channel_id = c ∧ d.id = ev := by
  intro d hd
  cases hsup : supports_target_detection ev
  · rw [descriptorsFor_generic_only slug c ev hsup] at hd
    simp at hd
    rw [hd]
    exact ⟨rfl, rfl⟩
  · rw [descriptorsFor_target_expansion slug c ev hsup] at hd
    simp at hd
    rcases hd with hd | hd | hd <;> rw [hd] <;> exact ⟨rfl, rfl⟩

theorem filter_descriptorsFor_self (slug : String) (ch : Nat) (e : String) :
    (descriptorsFor slug ch e).filter (fun d => d.channel_id == ch && d.id == e)
      = descriptorsFor slug ch e := by
  refine List.filter_eq_self.mpr ?_
  intro d hd
  obtain ⟨h1, h2⟩ := descriptorsFor_channel_event slug ch e d hd
  simp [h1, h2]

theorem filter_descriptorsFor_ne (slug : String) (c : Nat) (ev : String)
    (ch : Nat) (e : String) (h : ¬(c = ch ∧ ev = e)) :
    (descriptorsFor slug c ev).filter (fun d => d.channel_id == ch && d.id == e)
      = [] := by
  refine List.filter_eq_nil_iff.mpr ?_
  intro d hd hb
  obtain ⟨h1, h2⟩ := descriptorsFor_channel_event slug c ev d hd
  rw [h1, h2] at hb
  simp at hb
  exact h hb

theorem filter_events_flatMap (slug : String) (ch : Nat) (e : String) :
    ∀ evs : List String, evs.count e = 1 →
      ((evs.flatMap (descriptorsFor slug ch)).filter
        (fun d => d.channel_id == ch && d.id == e)) = descriptorsFor slug ch e := by
  intro evs
  induction evs with
  | nil => intro h; simp at h
  | cons ev tl ih =>
    intro h
    rw [List.flatMap_cons, List.filter_append]
    by_cases hev : ev = e
    · subst hev
      have hc : tl.count ev = 0 := by
        rw [List.count_cons_self] at h
        omega
      have hnotmem : ev ∉ tl := List.count_eq_zero.mp hc
      have htl : ((tl.flatMap (descriptorsFor slug ch)).filter
          (fun d => d.channel_id == ch && d.id == ev)) = [] := by
        refine List.filter_eq_nil_iff.mpr ?_
        intro d hd hb
        obtain ⟨ev', hev', hd'⟩ := List.mem_flatMap.mp hd
        obtain ⟨h1, h2⟩ := descriptorsFor_channel_event slug ch ev' d hd'
        rw [h1, h2] at hb
        simp at hb
        exact hnotmem (hb ▸ hev')
      rw [filter_descriptorsFor_self, htl, List.append_nil]
    · have hhd := filter_descriptorsFor_ne slug ch ev ch e
        (fun hpair => hev hpair.2)
      rw [hhd, List.nil_append]
      refine ih ?_
      rw [List.count_cons] at h
      simpa [hev] using h

theorem filter_channels_not_mem (slug : String) (ch : Nat) (e : String)
    (rest : List (Nat × List String)) (h : ch ∉ rest.map Prod.fst) :
    ((rest.flatMap (fun c => c.2.flatMap (descriptorsFor slug c.1))).filter
      (fun d => d.channel_id == ch && d.id == e)) = [] := by
  refine List.filter_eq_nil_iff.mpr ?_
  intro d hd hb
  obtain ⟨c, hc, hd2⟩ := List.mem_flatMap.mp hd
  obtain ⟨ev, _, hd3⟩ := List.mem_flatMap.mp hd2
  obtain ⟨h1, -⟩ := descriptorsFor_channel_event slug c.1 ev d hd3
  rw [h1] at hb
  simp at hb
  exact h (hb.1 ▸ List.mem_map_of_mem Prod.fst hc)

/-- C4: in the built device model, for every channel and every supported
event type in the target-detection set, exactly three EventDescriptors
exist for that (channel, event type) — one generic with detection_target
none and one each for human and vehicle, with pairwise distinct
unique_ids of the form base, base_human, base_vehicle; for every
supported event type outside that set, exactly one descriptor exists and
its detection_target is none. -/
theorem target_detection_fanout (slug : String)
    (channels : List (Nat × List String)) (ch : Nat) (evs : List String)
    (e : String) (hmem : (ch, evs) ∈ channels)
    (hnodup : (channels.map Prod.fst).Nodup) (hcount : evs.count e = 1) :
    ((buildEventDescriptors slug channels).filter
        (fun d => d.channel_id == ch && d.id == e)) = descriptorsFor slug ch e ∧
    (supports_target_detection e = true →
      descriptorsFor slug ch e =
        [{ id := e, channel_id := ch, detection_target := none,
           unique_id := baseUniqueId slug ch e },
         { id := e, channel_id := ch, detection_target := some "human",
           unique_id := get_target_event_id (baseUniqueId slug ch e) "human" },
         { id := e, channel_id := ch, detection_target := some "vehicle",
           unique_id := get_target_event_id (baseUniqueId slug ch e) "vehicle" }] ∧
      (descriptorsFor slug ch e).length = 3 ∧
      get_target_event_id (baseUniqueId slug ch e) "human" ≠ baseUniqueId slug ch e ∧
      get_target_event_id (baseUniqueId slug ch e) "vehicle" ≠ baseUniqueId slug ch e ∧
      get_target_event_id (baseUniqueId slug ch e) "vehicle"
        ≠ get_target_event_id (baseUniqueId slug ch e) "human") ∧
    (supports_target_detection e = false →
      descriptorsFor slug ch e =
        [{ id := e, channel_id := ch, detection_target := none,
           unique_id := baseUniqueId slug ch e }] ∧
      (descriptorsFor slug ch e).length = 1) := by
  refine ⟨?_, ?_, ?_⟩
  · induction channels with
    | nil => simp at hmem
    | cons c rest ih =>
      rw [List.map_cons, List.nodup_cons] at hnodup
      unfold buildEventDescriptors
      rw [List.flatMap_cons, List.filter_append]
      rcases List.mem_cons.mp hmem with heq | hmem'
      · subst heq
        have hrest : ch ∉ rest.map Prod.fst := hnodup.1
        rw [filter_channels_not_mem slug ch e rest hrest, List.append_nil]
        exact filter_events_flatMap slug ch e evs hcount
      · have hc1 : c.1 ≠ ch := by
          intro hcc
          exact hnodup.1 (hcc ▸ List.mem_map_of_mem Prod.fst hmem')
        have hhead : ((c.2.flatMap (descriptorsFor slug c.1)).filter
            (fun d => d.channel_id == ch && d.id == e)) = [] := by
          refine List.filter_eq_nil_iff.mpr ?_
          intro d hd hb
          obtain ⟨ev, _, hd'⟩ := List.mem_flatMap.mp hd
          obtain ⟨h1, -⟩ := descriptorsFor_channel_event slug c.1 ev d hd'
          rw [h1] at hb
          simp at hb
          exact hc1 hb.1
        rw [hhead, List.nil_append]
        exact ih hmem' hnodup.2
  · intro hsup
    obtain ⟨hh, hv, hvh⟩ := target_uids_distinct (baseUniqueId slug ch e)
    refine ⟨descriptorsFor_target_expansion slug ch e hsup, ?_, hh, hv, hvh⟩
    rw [descriptorsFor_target_expansion slug ch e hsup]
    rfl
  · intro hsup
    refine ⟨descriptorsFor_generic_only slug ch e hsup, ?_⟩
    rw [descriptorsFor_generic_only slug ch e hsup]
    rfl

/-- C4 witness: a one-channel model supporting fielddetection and
motiondetection gets exactly the three-descriptor expansion for
fielddetection. -/
theorem target_detection_fanout_witness :
    ((buildEventDescriptors "cam" [(1, ["fielddetection", "motiondetection"])]).filter
        (fun d => d.channel_id == 1 && d.id == "fielddetection"))
      = descriptorsFor "cam" 1 "fielddetection" ∧
    (descriptorsFor "cam" 1 "fielddetection").length = 3 := by
  obtain ⟨h1, h2, -⟩ := target_detection_fanout "cam"
    [(1, ["fielddetection", "motiondetection"])] 1
    ["fielddetection", "motiondetection"] "fielddetection"
    (by simp) (by simp) (by decide)
  exact ⟨h1, (h2 (by decide)).2.1⟩

/-- All pending timers in the registry belong to one entity (the state a
run of notifications for a single entity maintains, starting empty). -/
def pendingOnly (r : ResetRegistry) (e : String) : Prop :=
  ∀ p ∈ r.pending, p.1 = e

theorem fireReset_pending (r : ResetRegistry) (eid : String) :
    (fireReset r eid).pending = r.pending.filter (fun p => p.1 != eid) := by
  simp only [fireReset]
  split
  · rfl
  · rfl

theorem fireReset_states_on (r : ResetRegistry) (eid : String)
    (h : getEntityState r.states eid = true) :
    (fireReset r eid).states = setEntityState r.states eid false := by
  simp only [fireReset]
  rw [if_pos h]

theorem pendingOnly_armReset (r : ResetRegistry) (e : String) (t : Nat)
    (h : pendingOnly r e) :
    (armReset r e t).pending = [(e, t + EVENT_AUTO_RESET_TIMEOUT)] := by
  have hnil : r.pending.filter (fun p => p.1 != e) = [] := by
    refine List.filter_eq_nil_iff.mpr ?_
    intro p hp hb
    simp [h p hp] at hb
  simp only [armReset]
  rw [hnil]

theorem pendingOnly_foldl_fire (e : String) :
    ∀ (l : List String) (r : ResetRegistry), pendingOnly r e →
      pendingOnly (l.foldl fireReset r) e := by
  intro l
  induction l with
  | nil => intro r h; exact h
  | cons x tl ih =>
    intro r h
    rw [List.foldl_cons]
    refine ih _ ?_
    intro p hp
    rw [fireReset_pending] at hp
    exact h p (List.mem_filter.mp hp).1

theorem pendingOnly_notifyEvent (r : ResetRegistry) (e : String) (t : Nat)
    (h : pendingOnly r e) : pendingOnly (notifyEvent r e t) e := by
  intro p hp
  unfold notifyEvent at hp
  rw [pendingOnly_armReset _ e t ?honly] at hp
  case honly =>
    intro q hq
    exact pendingOnly_foldl_fire e (dueList r t) r h q hq
  rcases List.mem_singleton.mp hp with rfl
  rfl

theorem pendingOnly_runNotifs (e : String) (ts : List Nat) :
    pendingOnly (runNotifs e ts) e := by
  unfold runNotifs
  have hinit : pendingOnly initRegistry e := by
    intro p hp
    simp [initRegistry] at hp
  generalize initRegistry = r at hinit ⊢
  induction ts generalizing r with
  | nil => exact hinit
  | cons t tl ih =>
    rw [List.foldl_cons]
    exact ih _ (pendingOnly_notifyEvent r e t hinit)

theorem runNotifs_append_last (e : String) (ts : List Nat) (tn : Nat) :
    runNotifs e (ts ++ [tn]) = notifyEvent (runNotifs e ts) e tn := by
  unfold runNotifs
  rw [List.foldl_append]
  rfl

theorem notifyEvent_pending (r : ResetRegistry) (e : String) (t : Nat)
    (h : pendingOnly r e) :
    (notifyEvent r e t).pending = [(e, t + EVENT_AUTO_RESET_TIMEOUT)] := by
  unfold notifyEvent
  refine pendingOnly_armReset _ e t ?_
  intro q hq
  exact pendingOnly_foldl_fire e (dueList r t) r h q hq

theorem notifyEvent_state_on (r : ResetRegistry) (e : String) (t : Nat) :
    getEntityState (notifyEvent r e t).states e = true := by
  unfold notifyEvent
  exact getEntityState_set_same _ e true

theorem advanceTo_singleton (r : ResetRegistry) (e : String) (tf t : Nat)
    (hp : r.pending = [(e, tf)]) (ht : tf ≤ t) :
    advanceTo r t = fireReset r e := by
  unfold advanceTo dueList
  rw [hp]
  have hflt : List.filter (fun p => decide (p.2 ≤ t)) [(e, tf)] = [(e, tf)] := by
    rw [List.filter_cons]
    simp [ht]
  rw [hflt]
  rfl

/-- C1: over any finite sequence of inbound notifications that set one
entity on, at every point (every prefix of the sequence) the auto-reset
registry holds at most one pending timer for that entity — each new
arming cancels the prior timer — and once the fixed auto-reset timeout
has elapsed after the last notification the entity's state is off and
the pending-timer count for that entity is 0. -/
theorem auto_reset_single_timer (e : String) (body pre suf : List Nat)
    (tn t : Nat) (hsplit : body ++ [tn] = pre ++ suf)
    (ht : tn + EVENT_AUTO_RESET_TIMEOUT ≤ t) :
    pendingResetsFor (runNotifs e pre) e ≤ 1 ∧
    getEntityState (advanceTo (runNotifs e (body ++ [tn])) t).states e = false ∧
    pendingResetsFor (advanceTo (runNotifs e (body ++ [tn])) t) e = 0 := by
  have honly := pendingOnly_runNotifs e body
  have hrun := runNotifs_append_last e body tn
  have hpend : (runNotifs e (body ++ [tn])).pending
      = [(e, tn + EVENT_AUTO_RESET_TIMEOUT)] := by
    rw [hrun]
    exact notifyEvent_pending _ e tn honly
  have hstate : getEntityState (runNotifs e (body ++ [tn])).states e = true := by
    rw [hrun]
    exact notifyEvent_state_on _ e tn
  have hadv : advanceTo (runNotifs e (body ++ [tn])) t
      = fireReset (runNotifs e (body ++ [tn])) e :=
    advanceTo_singleton _ e (tn + EVENT_AUTO_RESET_TIMEOUT) t hpend ht
  refine ⟨?_, ?_, ?_⟩
  · rcases List.eq_nil_or_concat pre with rfl | ⟨pre', tp, rfl⟩
    · simp [runNotifs, pendingResetsFor, initRegistry]
    · have hpre : (runNotifs e (pre' ++ [tp])).pending
          = [(e, tp + EVENT_AUTO_RESET_TIMEOUT)] := by
        rw [runNotifs_append_last]
        exact notifyEvent_pending _ e tp (pendingOnly_runNotifs e pre')
      unfold pendingResetsFor
      rw [List.concat_eq_append, hpre, List.filter_cons]
      simp
  · rw [hadv, fireReset_states_on _ e hstate, getEntityState_set_same]
  · unfold pendingResetsFor
    rw [hadv, fireReset_pending, hpend]
    rw [List.filter_cons]
    simp

/-- C1 witness: two rapid notifications leave a single pending timer, and
advancing past the timeout from the last notification leaves the entity
off with zero pending timers. -/
theorem auto_reset_single_timer_witness :
    pendingResetsFor (runNotifs "a" [0]) "a" ≤ 1 ∧
    getEntityState (advanceTo (runNotifs "a" ([0] ++ [5])) 35).states "a" = false ∧
    pendingResetsFor (advanceTo (runNotifs "a" ([0] ++ [5])) 35) "a" = 0 :=
  auto_reset_single_timer "a" [0] [0] [5] 5 35 rfl (by decide)

end HikvisionNext
